import Mathlib

/-!
Verification model of the two SpiderFoot plugin modules
(modules/sfp_bluesky.py and modules/sfp_tiktok.py).

The Python code is shallowly embedded: JSON values become an inductive
type, the regular expressions of the source become explicit pattern
terms interpreted by a small backtracking matcher with Python
re-module semantics (leftmost search, greedy and lazy repetition,
word boundaries), and each plugin method becomes a pure function from
its inputs (options, a fetch oracle, the inbound event) to the list
of emitted events and the list of requested URLs.

Modelling notes, applying throughout:
- character classes are interpreted over ASCII; the Unicode behaviour
  of Python \w, str.lower and str.strip beyond ASCII is out of scope;
- Python None is represented by Json.null (both are falsy);
- dictionary access d.get(k) on a non-dictionary raises in Python;
  the model totalises it (returning the default), and every claim is
  evaluated on dictionary-shaped data where the two agree;
- the host collaborators notifyListeners and emitSocialMedia are
  modelled as appending one typed event to the output list; the
  producer and parent fields of an event are the same for every event
  of one handler call and are dropped;
- recursion that is not structural carries explicit fuel; entry
  points pass fuel that dominates the recursion depth (for dumps the
  fixed bound plays the role of the Python recursion limit);
- html.unescape covers the named/numeric references relevant to
  embedded-JSON pages; the full HTML5 entity table is a stdlib
  collaborator;
- json.loads is modelled for the integer fragment of JSON (no float
  literals); json.dumps escapes quotes and backslashes (control and
  non-ASCII escaping is not exercised by any claim).
-/

/-! ## JSON values (the shape produced by json.loads) -/

inductive Json where
  | null
  | bool (b : Bool)
  | num (n : Int)
  | str (s : String)
  | arr (elems : List Json)
  | obj (fields : List (String × Json))

/-- Python truthiness of a JSON value (None, False, 0, "", [], \x7b\x7d are falsy). -/
def Json.truthy : Json → Bool
  | .null => false
  | .bool b => b
  | .num n => n != 0
  | .str s => s != ""
  | .arr l => !l.isEmpty
  | .obj l => !l.isEmpty

/-- Dictionary lookup; the parser keeps keys unique, so the first hit is the value. -/
def Json.getOpt : Json → String → Option Json
  | .obj fields, k => (fields.find? (fun p => p.1 == k)).map (fun p => p.2)
  | _, _ => none

/-- Python d.get(k): a missing key yields None (modelled as null). -/
def Json.get (j : Json) (k : String) : Json := (j.getOpt k).getD .null

/-- Python d.get(k, \x7b\x7d): a missing key yields an empty dictionary. -/
def Json.getObj (j : Json) (k : String) : Json := (j.getOpt k).getD (.obj [])

/-- Python d.values() for a dictionary. -/
def Json.values : Json → List Json
  | .obj fields => fields.map (fun p => p.2)
  | _ => []

/-- Python d.items() for a dictionary (insertion order). -/
def Json.items : Json → List (String × Json)
  | .obj fields => fields
  | _ => []

/-- Python x or y on JSON values: x when truthy, else y. -/
def pyOr (a b : Json) : Json := if a.truthy then a else b

/-! ## Python string helpers (ASCII fragment, kernel-computable) -/

def pySpace (c : Char) : Bool :=
  c == ' ' || c == '\t' || c == '\n' || c == '\x0b' || c == '\x0c' || c == '\r'

def lowerChar (c : Char) : Char :=
  if 'A' ≤ c && c ≤ 'Z' then Char.ofNat (c.toNat + 32) else c

/-- Python str.lower() restricted to ASCII. -/
def pyLower (s : String) : String := String.mk (s.data.map lowerChar)

/-- Python str.strip() with no argument: remove leading and trailing whitespace. -/
def pyStrip (s : String) : String :=
  String.mk (((s.data.dropWhile pySpace).reverse.dropWhile pySpace).reverse)

/-- Python s.startswith(t). -/
def pyStarts (s t : String) : Bool := t.data.isPrefixOf s.data

/-- Python s.split(sep)[0] for sep = at sign: the part before the first occurrence. -/
def localPart (s : String) : String :=
  String.mk (s.data.takeWhile (fun c => c != '@'))

/-- Python s.lstrip(chars) for the single-character set: drop every leading copy. -/
def lstripAt (s : String) : String :=
  String.mk (s.data.dropWhile (fun c => c == '@'))

/-- Python uri.split(sep)[-1] for sep = slash: the segment after the last slash. -/
def lastSegAux : List Char → List Char → List Char
  | [], acc => acc.reverse
  | '/' :: rest, _ => lastSegAux rest []
  | c :: rest, acc => lastSegAux rest (c :: acc)

def lastSeg (s : String) : String := String.mk (lastSegAux s.data [])

/-! ## json.dumps (default separators, insertion order) -/

def escChar (c : Char) : String :=
  if c == '"' then "\\\""
  else if c == '\\' then "\\\\"
  else if c == '\n' then "\\n"
  else if c == '\t' then "\\t"
  else if c == '\r' then "\\r"
  else String.mk [c]

def escStr (s : String) : String := String.join (s.data.map escChar)

/-- Serializer body; the fuel plays the role of the Python recursion limit. -/
def dumpsF : Nat → Json → String
  | 0, _ => ""
  | fuel + 1, j =>
    match j with
    | .null => "null"
    | .bool true => "true"
    | .bool false => "false"
    | .num n => toString n
    | .str s => "\"" ++ escStr s ++ "\""
    | .arr l => "[" ++ String.intercalate ", " (l.map (dumpsF fuel)) ++ "]"
    | .obj f => "\x7b" ++
        String.intercalate ", "
          (f.map (fun p => "\"" ++ escStr p.1 ++ "\": " ++ dumpsF fuel p.2)) ++ "\x7d"

def dumps (j : Json) : String := dumpsF 1000 j

/-- Python str() as used in f-string interpolation of JSON-derived values.
Containers are approximated by their JSON serialization (never exercised
by a claim; Python repr formatting of containers differs). -/
def pyStr : Json → String
  | .null => "None"
  | .bool true => "True"
  | .bool false => "False"
  | .num n => toString n
  | .str s => s
  | j => dumps j

/-- Event payloads: Python passes the JSON value itself; string values pass through. -/
def eventData : Json → String
  | .str s => s
  | j => pyStr j

/-! ## json.loads (integer fragment; strict grammar, full consumption) -/

def jsonWs (c : Char) : Bool := c == ' ' || c == '\t' || c == '\n' || c == '\r'

def skipJsonWs (s : List Char) : List Char := s.dropWhile jsonWs

def hexVal (c : Char) : Option Nat :=
  let n := c.toNat
  if c.isDigit then some (n - 48)
  else if 97 ≤ n && n ≤ 102 then some (n - 87)
  else if 65 ≤ n && n ≤ 70 then some (n - 55)
  else none

/-- Scan a JSON string body after the opening quote; yields content and rest. -/
def parseStringBody : Nat → List Char → Option (List Char × List Char)
  | 0, _ => none
  | _, [] => none
  | fuel + 1, c :: rest =>
    if c == '"' then some ([], rest)
    else if c == '\\' then
      match rest with
      | [] => none
      | e :: rest2 =>
        if e == 'u' then
          match rest2 with
          | h1 :: h2 :: h3 :: h4 :: rest3 =>
            match hexVal h1, hexVal h2, hexVal h3, hexVal h4 with
            | some a, some b, some c2, some d =>
              let n := ((a * 16 + b) * 16 + c2) * 16 + d
              (parseStringBody fuel rest3).map (fun p => (Char.ofNat n :: p.1, p.2))
            | _, _, _, _ => none
          | _ => none
        else
          let ch : Option Char :=
            if e == '"' then some '"'
            else if e == '\\' then some '\\'
            else if e == '/' then some '/'
            else if e == 'n' then some '\n'
            else if e == 't' then some '\t'
            else if e == 'r' then some '\r'
            else if e == 'b' then some '\x08'
            else if e == 'f' then some '\x0c'
            else none
          match ch with
          | none => none
          | some ch => (parseStringBody fuel rest2).map (fun p => (ch :: p.1, p.2))
    else (parseStringBody fuel rest).map (fun p => (c :: p.1, p.2))

def digitsToNat (ds : List Char) : Nat :=
  ds.foldl (fun acc c => acc * 10 + (c.toNat - '0'.toNat)) 0

/-- JSON integer literal: optional minus, no leading zeros, no float suffix. -/
def parseIntLit (s : List Char) : Option (Int × List Char) :=
  let (neg, s1) := match s with
    | '-' :: rest => (true, rest)
    | _ => (false, s)
  let ds := s1.takeWhile Char.isDigit
  let rest := s1.drop ds.length
  if ds.isEmpty then none
  else if ds.length > 1 && ds.head? == some '0' then none
  else match rest with
    | '.' :: _ => none
    | 'e' :: _ => none
    | 'E' :: _ => none
    | _ =>
      let n : Int := Int.ofNat (digitsToNat ds)
      some (if neg then -n else n, rest)

/-- json.loads keeps the first insertion position of a duplicated key, last value wins. -/
def objInsert (fields : List (String × Json)) (k : String) (v : Json) :
    List (String × Json) :=
  if fields.any (fun p => p.1 == k) then
    fields.map (fun p => if p.1 == k then (k, v) else p)
  else fields ++ [(k, v)]

mutual

def parseValue : Nat → List Char → Option (Json × List Char)
  | 0, _ => none
  | fuel + 1, s =>
    let s := skipJsonWs s
    match s with
    | [] => none
    | c :: rest =>
      if c == 'n' then
        if "ull".data.isPrefixOf rest then some (.null, rest.drop 3) else none
      else if c == 't' then
        if "rue".data.isPrefixOf rest then some (.bool true, rest.drop 3) else none
      else if c == 'f' then
        if "alse".data.isPrefixOf rest then some (.bool false, rest.drop 4) else none
      else if c == '"' then
        (parseStringBody (fuel + 1) rest).map (fun p => (.str (String.mk p.1), p.2))
      else if c == '[' then
        match skipJsonWs rest with
        | ']' :: r => some (.arr [], r)
        | r => (parseElems fuel r).map (fun p => (.arr p.1, p.2))
      else if c == '\x7b' then
        match skipJsonWs rest with
        | '\x7d' :: r => some (.obj [], r)
        | r => (parseFields fuel [] r).map (fun p => (.obj p.1, p.2))
      else
        (parseIntLit s).map (fun p => (.num p.1, p.2))

def parseElems : Nat → List Char → Option (List Json × List Char)
  | 0, _ => none
  | fuel + 1, s =>
    match parseValue fuel s with
    | none => none
    | some (v, r) =>
      match skipJsonWs r with
      | ',' :: r2 => (parseElems fuel r2).map (fun p => (v :: p.1, p.2))
      | ']' :: r2 => some ([v], r2)
      | _ => none

def parseFields : Nat → List (String × Json) → List Char →
    Option (List (String × Json) × List Char)
  | 0, _, _ => none
  | fuel + 1, acc, s =>
    match skipJsonWs s with
    | '"' :: r =>
      match parseStringBody (fuel + 1) r with
      | none => none
      | some (kcs, r2) =>
        match skipJsonWs r2 with
        | ':' :: r3 =>
          match parseValue fuel r3 with
          | none => none
          | some (v, r4) =>
            let acc2 := objInsert acc (String.mk kcs) v
            match skipJsonWs r4 with
            | ',' :: r5 => parseFields fuel acc2 r5
            | '\x7d' :: r5 => some (acc2, r5)
            | _ => none
        | _ => none
    | _ => none

end

/-- json.loads: parse one value and require only whitespace after it. -/
def json_loads (s : String) : Option Json :=
  match parseValue (2 * s.length + 8) s.data with
  | some (v, rest) => if (skipJsonWs rest).isEmpty then some v else none
  | none => none

/-! ## Regular expressions of the source, as explicit patterns

The matcher implements the Python re semantics the source relies on:
re.search tries start positions left to right; at a position the
pattern items are tried in backtracking priority order (greedy
repetition longest first, lazy repetition shortest first, optional
part first with, alternation left branch first); group 1 is recorded
by open/close marks. All repetition in the source is over a single
character class, so backtracking over a repetition enumerates its
run lengths. The fuel passed by the entry points dominates the
recursion depth, which shrinks with the pattern measure at every
call. -/

inductive RItem where
  | lit (s : List Char)
  | cls (p : Char → Bool)
  | rep (p : Char → Bool) (lo : Nat) (hi : Option Nat) (lzy : Bool)
  | seq (a b : RItem)
  | opt (sub : RItem)
  | alt (a b : RItem)
  | bnd
  | openG
  | closeG
  | eosD

def RItem.size : RItem → Nat
  | .seq a b => 1 + a.size + b.size
  | .opt a => 1 + a.size
  | .alt a b => 1 + a.size + b.size
  | _ => 1

def rsize (l : List RItem) : Nat := (l.map RItem.size).sum

/-- Matcher state: text still to consume, the character just before it
(for word boundaries), and the group-1 capture bookkeeping. -/
structure MState where
  rest : List Char
  prev : Option Char
  inCap : Bool
  cap : List Char
  capDone : Option (List Char)

def isAsciiWord (c : Char) : Bool := c.isAlphanum || c == '_'

def atBoundary (prev next : Option Char) : Bool :=
  let pw := match prev with | some c => isAsciiWord c | none => false
  let nw := match next with | some c => isAsciiWord c | none => false
  pw != nw

/-- Consume the given characters (a prefix of rest) from the state. -/
def MState.consume (st : MState) (s : List Char) : MState :=
  { rest := st.rest.drop s.length
    prev := match s.getLast? with | some c => some c | none => st.prev
    inCap := st.inCap
    cap := if st.inCap then s.reverse ++ st.cap else st.cap
    capDone := st.capDone }

def matchItems : Nat → List RItem → MState → Option MState
  | 0, _, _ => none
  | _, [], st => some st
  | fuel + 1, item :: rest, st =>
    match item with
    | .lit l =>
      if l.isPrefixOf st.rest then matchItems fuel rest (st.consume l) else none
    | .cls p =>
      match st.rest with
      | c :: _ => if p c then matchItems fuel rest (st.consume [c]) else none
      | [] => none
    | .rep p lo hi lzy =>
      let run := st.rest.takeWhile p
      let maxN := match hi with | none => run.length | some h => min h run.length
      if lo > maxN then none
      else
        let ks := (List.range (maxN + 1 - lo)).map
          (fun i => if lzy then lo + i else maxN - i)
        ks.findSome? (fun k => matchItems fuel rest (st.consume (run.take k)))
    | .seq a b => matchItems fuel (a :: b :: rest) st
    | .opt a =>
      match matchItems fuel (a :: rest) st with
      | some r => some r
      | none => matchItems fuel rest st
    | .alt a b =>
      match matchItems fuel (a :: rest) st with
      | some r => some r
      | none => matchItems fuel (b :: rest) st
    | .bnd =>
      if atBoundary st.prev st.rest.head? then matchItems fuel rest st else none
    | .openG => matchItems fuel rest { st with inCap := true, cap := [] }
    | .closeG =>
      matchItems fuel rest { st with inCap := false, capDone := some st.cap.reverse }
    | .eosD =>
      if st.rest.isEmpty || st.rest == ['\n'] then matchItems fuel rest st else none

def initState (s : List Char) : MState :=
  { rest := s, prev := none, inCap := false, cap := [], capDone := none }

def stateAt (s : List Char) (i : Nat) : MState :=
  { rest := s.drop i, prev := (s.take i).getLast?, inCap := false, cap := [],
    capDone := none }

/-- Python re.match: anchored at the start of the string. -/
def reMatch (items : List RItem) (s : List Char) : Option MState :=
  matchItems (rsize items + 1) items (initState s)

/-- Python re.search from a given position onward: leftmost match wins. -/
def reSearchFrom (items : List RItem) (s : List Char) (start : Nat) :
    Option (Nat × MState) :=
  ((List.range (s.length + 1 - start)).map (fun d => start + d)).findSome?
    (fun i => (matchItems (rsize items + 1) items (stateAt s i)).map (fun st => (i, st)))

def reSearch (items : List RItem) (s : List Char) : Option MState :=
  (reSearchFrom items s 0).map (fun p => p.2)

/-- The text of group 1 of the leftmost match (m.group(1) in the source). -/
def reCapture (items : List RItem) (s : List Char) : Option (List Char) :=
  (reSearch items s).map (fun st => st.capDone.getD [])

/-- Python re.findall: non-overlapping leftmost matches, scanning left
to right; yields group 1 of each match (or the whole match for the
pattern without groups, which is encoded with marks around the whole). -/
def findallAux (items : List RItem) (s : List Char) : Nat → Nat → List (List Char)
  | 0, _ => []
  | fuel + 1, start =>
    if start > s.length then []
    else
      match reSearchFrom items s start with
      | none => []
      | some (i, st) =>
        let stop := s.length - st.rest.length
        let next := if stop > i then stop else i + 1
        st.capDone.getD [] :: findallAux items s fuel next

def findall (items : List RItem) (s : List Char) : List (List Char) :=
  findallAux items s (s.length + 1) 0

/-- Python set() iteration over match strings; the model keeps first
occurrences in order (the source then emits one event per element, so
only the underlying set matters to the claims). -/
def dedupAux (seen : List (List Char)) : List (List Char) → List (List Char)
  | [] => []
  | x :: rest =>
    if seen.contains x then dedupAux seen rest
    else x :: dedupAux (x :: seen) rest

def dedup (l : List (List Char)) : List (List Char) := dedupAux [] l

/-! ## Character classes and concrete patterns of the source -/

def isLowAlnum (c : Char) : Bool :=
  ('a' ≤ c && c ≤ 'z') || ('0' ≤ c && c ≤ '9')

def isLowAlpha (c : Char) : Bool := 'a' ≤ c && c ≤ 'z'

def isAsciiAlpha (c : Char) : Bool := c.isAlpha

def isNotGt (c : Char) : Bool := c != '>'

def anyCh (_ : Char) : Bool := true

def isHandleMid (c : Char) : Bool := isLowAlnum c || c == '.' || c == '-'

def isWordDotDash (c : Char) : Bool := isAsciiWord c || c == '.' || c == '-'

def isWordDash (c : Char) : Bool := isAsciiWord c || c == '-'

def isEmailLocal (c : Char) : Bool :=
  isAsciiWord c || c == '.' || c == '+' || c == '%' || c == '-'

/-- sfp_bluesky._HANDLE_RE, used with re.match:
the pattern [a-z0-9] then optionally [a-z0-9.-]* [a-z0-9], then a dot,
then [a-z] at least twice, then the dollar anchor. -/
def handleRe : List RItem :=
  [.cls isLowAlnum,
   .opt (.seq (.rep isHandleMid 0 none false) (.cls isLowAlnum)),
   .lit ".".data,
   .rep isLowAlpha 2 none false,
   .eosD]

/-- sfp_tiktok username pattern, used with re.match:
[\w.-] repeated 3 to 32 times, then the dollar anchor. -/
def usernameRe : List RItem :=
  [.rep isWordDotDash 3 (some 32) false, .eosD]

/-- sfp_tiktok._SIGI_PAT: a script tag whose attributes name SIGI_STATE,
capturing the tag body lazily up to the closing tag (re.S). -/
def sigiPat : List RItem :=
  [.lit "<script".data, .rep isNotGt 0 none false, .lit "id=".data,
   .opt (.lit "\"".data), .lit "SIGI_STATE".data, .opt (.lit "\"".data),
   .rep isNotGt 0 none false, .lit ">".data,
   .openG, .rep anyCh 0 none true, .closeG,
   .lit "</script>".data]

/-- sfp_tiktok._SIGI_WIN: the window assignment form, capturing the
braced object lazily up to the first brace-semicolon. -/
def sigiWin : List RItem :=
  [.lit "window[\"SIGI_STATE\"]".data, .rep pySpace 0 none false,
   .lit "=".data, .rep pySpace 0 none false,
   .openG, .lit "\x7b".data, .rep anyCh 0 none true, .lit "\x7d".data, .closeG,
   .lit ";".data]

/-- sfp_tiktok._NEXT_PAT: like the SIGI script-tag pattern for __NEXT_DATA__. -/
def nextPat : List RItem :=
  [.lit "<script".data, .rep isNotGt 0 none false, .lit "id=".data,
   .opt (.lit "\"".data), .lit "__NEXT_DATA__".data, .opt (.lit "\"".data),
   .rep isNotGt 0 none false, .lit ">".data,
   .openG, .rep anyCh 0 none true, .closeG,
   .lit "</script>".data]

/-- sfp_tiktok._NEXT_WIN: the window assignment form for __NEXT_DATA__. -/
def nextWin : List RItem :=
  [.lit "window[\"__NEXT_DATA__\"]".data, .rep pySpace 0 none false,
   .lit "=".data, .rep pySpace 0 none false,
   .openG, .lit "\x7b".data, .rep anyCh 0 none true, .lit "\x7d".data, .closeG,
   .lit ";".data]

/-- sfp_tiktok._APPJSON: a generic application/json script block whose
braced payload mentions the UserModule marker key. -/
def appJson : List RItem :=
  [.lit "<script".data, .rep isNotGt 0 none false, .lit "application/json".data,
   .rep isNotGt 0 none false, .lit ">".data,
   .openG, .lit "\x7b".data, .rep anyCh 0 none true,
   .lit "\"UserModule\"".data, .rep anyCh 0 none true, .lit "\x7d".data, .closeG,
   .lit "</script>".data]

/-- Shared EMAIL_RE of both modules: a word boundary, a local part,
the at sign, a dotted domain, a 2+ letter suffix, a word boundary.
The group marks record the whole match (findall with no groups). -/
def emailRe : List RItem :=
  [.bnd, .openG, .rep isEmailLocal 1 none false, .lit "@".data,
   .rep isWordDotDash 1 none false, .lit ".".data,
   .rep isAsciiAlpha 2 none false, .closeG, .bnd]

/-- Shared DOMAIN_RE of both modules: optional scheme, optional www
part, then the captured bare domain, closed by a slash or a boundary. -/
def domainRe : List RItem :=
  [.bnd,
   .opt (.seq (.lit "http".data) (.seq (.opt (.lit "s".data)) (.lit "://".data))),
   .opt (.lit "www.".data),
   .openG, .rep isWordDash 1 none false, .lit ".".data,
   .rep isAsciiAlpha 2 none false, .closeG,
   .alt (.lit "/".data) .bnd]

/-! ## html.unescape (the references relevant to embedded JSON) -/

def unescapeChars : Nat → List Char → List Char
  | 0, s => s
  | _, [] => []
  | fuel + 1, c :: rest =>
    if c == '&' then
      if "quot;".data.isPrefixOf rest then '"' :: unescapeChars fuel (rest.drop 5)
      else if "amp;".data.isPrefixOf rest then '&' :: unescapeChars fuel (rest.drop 4)
      else if "lt;".data.isPrefixOf rest then '<' :: unescapeChars fuel (rest.drop 3)
      else if "gt;".data.isPrefixOf rest then '>' :: unescapeChars fuel (rest.drop 3)
      else if "#34;".data.isPrefixOf rest then '"' :: unescapeChars fuel (rest.drop 4)
      else if "#39;".data.isPrefixOf rest then '\'' :: unescapeChars fuel (rest.drop 4)
      else '&' :: unescapeChars fuel rest
    else c :: unescapeChars fuel rest

def pyUnescape (s : List Char) : List Char := unescapeChars (s.length + 1) s

/-! ## Events and the fetch collaborator -/

/-- One outbound event: its type tag and its payload. -/
structure SFEvent where
  eventType : String
  payload : String
deriving DecidableEq

/-- The structured result of sf.fetchUrl: status code and body.
A total transport failure is the none of the Option at the call site. -/
structure FetchResult where
  code : Int
  content : String

/-- A fetch oracle: what sf.fetchUrl answers for each URL. -/
abbrev Fetch := String → Option FetchResult

/-- Per-instance mutable state: the seen set of raw identifier strings. -/
structure PState where
  seen : List String

def countType (t : String) (evs : List SFEvent) : Nat :=
  (evs.filter (fun e => e.eventType == t)).length

/-! ## Shared bio entity parsing (identical in both modules)

Python iterates set(findall(...)); the set order is implementation
defined, the model keeps first occurrences. -/

def parse_bio_entities (bio : String) : List SFEvent :=
  (dedup (findall emailRe bio.data)).map
    (fun m => ⟨"EMAILADDR", String.mk m⟩) ++
  (dedup (findall domainRe bio.data)).map
    (fun m => ⟨"DOMAIN_NAME", String.mk m⟩)

/-! ## sfp_tiktok -/

namespace Tiktok

/-- The option fields the handlers read (setup defaults). -/
structure Opts where
  fetch_videos : Bool := true
  verify_acct : Bool := true
  parse_email_local : Bool := true
  fetch_profile_details : Bool := true
  max_videos : Nat := 10
  parse_bio : Bool := true

/-- sfp_tiktok._valid_username: a Boolean regex test on the raw string
(no stripping, no lowercasing). -/
def valid_username (username : String) : Bool :=
  (reMatch usernameRe username.data).isSome

/-- The users mapping _verify_account reads: UserModule.users, or else
ShareUser.users (Python or on the two lookups). -/
def usersOf (data : Json) : Json :=
  pyOr ((data.getObj "UserModule").get "users")
       ((data.getObj "ShareUser").get "users")

/-- The lowercased unique id of a user record; u.get("uniqueId", "").lower().
A non-string id would raise in Python; out of the modelled scope. -/
def uniqueIdLower (u : Json) : String :=
  pyLower (match (u.getOpt "uniqueId").getD (.str "") with
    | .str s => s
    | j => pyStr j)

/-- sfp_tiktok._verify_account: the users mapping must be truthy and
contain a record whose lowercased unique id equals the username; the
private/banned flags are only logged. -/
def verify_account (data : Json) (username : String) : Bool :=
  let users := usersOf data
  if !users.truthy then false
  else (users.values.find? (fun u => uniqueIdLower u == username)).isSome

/-- The canonical reshaping applied to a parsed __NEXT_DATA__ payload. -/
def reshape_next (parsed : Json) : Json :=
  let props := (parsed.getObj "props").getObj "pageProps"
  let user_info := (props.getObj "userInfo").getObj "user"
  let items := (props.getObj "itemInfo").getObj "itemStruct"
  let uid := match (user_info.getOpt "uniqueId").getD (.str "") with
    | .str s => s
    | j => pyStr j
  .obj [("UserModule", .obj [("users", .obj [(uid, user_info)])]),
        ("ItemModule", if items.truthy then items else .obj [])]

inductive SrcTyp where
  | sigi
  | next
  | generic
deriving DecidableEq

/-- The ordered strategy list of _extract_json. -/
def strategies : List (List RItem × SrcTyp) :=
  [(sigiPat, .sigi), (sigiWin, .sigi), (nextPat, .next), (nextWin, .next),
   (appJson, .generic)]

/-- The loop body of _extract_json: search each pattern in order, html
unescape the group, parse it; a parse failure falls through to the next
strategy; the next variant is reshaped into the canonical form. -/
def try_strategies : List (List RItem × SrcTyp) → List Char → Option (Json × String)
  | [], _ => none
  | (rgx, typ) :: rest, html_src =>
    match reCapture rgx html_src with
    | none => try_strategies rest html_src
    | some g =>
      let json_str := String.mk (pyUnescape g)
      match json_loads json_str with
      | none => try_strategies rest html_src
      | some parsed =>
        some (if typ == .next then reshape_next parsed else parsed, json_str)

/-- sfp_tiktok._extract_json: data and raw string, or none. -/
def extract_json (html_src : String) : Option (Json × String) :=
  try_strategies strategies html_src.data

/-- Events of the per-user part of _process_profile for one user record. -/
def user_events (opts : Opts) (user : Json) : List SFEvent :=
  (let url := user.get "avatarThumb"
   if url.truthy then [⟨"PROFILE_PHOTO", eventData url⟩] else []) ++
  (let bio := user.get "signature"
   if bio.truthy then
     ⟨"DESCRIPTION", eventData bio⟩ ::
       (if opts.parse_bio then parse_bio_entities (eventData bio) else [])
   else []) ++
  (let region := user.get "region"
   if region.truthy then [⟨"GEOINFO", eventData region⟩] else []) ++
  (let nick := user.get "nickname"
   if nick.truthy then [⟨"ACCOUNT_EXTERNAL_OWNER", eventData nick⟩] else []) ++
  [⟨"TIKTOK_PROFILE_INFO", dumps (.obj [
      ("nickname", user.get "nickname"),
      ("followers", user.get "followerCount"),
      ("likes", user.get "heartCount"),
      ("videos", user.get "videoCount"),
      ("private", (user.getOpt "isPrivate").getD (.bool false)),
      ("verified", (user.getOpt "verified").getD (.bool false))])⟩]

/-- The video loop of _process_profile: one LINKED_URL per item, one
DESCRIPTION per item with text, counting every item and breaking once
the count reaches max_videos. -/
def videos_loop (maxV : Nat) : List (String × Json) → Nat → List SFEvent
  | [], _ => []
  | (vid_id, vid) :: rest, count =>
    let url := "https://www.tiktok.com/@" ++ pyStr (vid.get "author") ++
      "/video/" ++ vid_id
    let evs := ⟨"LINKED_URL", url⟩ ::
      (let desc := vid.get "desc"
       if desc.truthy then [⟨"DESCRIPTION", eventData desc⟩] else [])
    if count + 1 ≥ maxV then evs else evs ++ videos_loop maxV rest (count + 1)

/-- sfp_tiktok._process_profile. -/
def process_profile (opts : Opts) (data : Json) : List SFEvent :=
  (((data.getObj "UserModule").getObj "users").values.map (user_events opts)).flatten ++
  (if !opts.fetch_videos || opts.max_videos == 0 then []
   else videos_loop opts.max_videos (data.getObj "ItemModule").items 0)

def profile_url (username : String) : String :=
  "https://www.tiktok.com/@" ++ username

/-- sfp_tiktok._process_username: fetch the profile page, bail out on an
empty body or a 404, emit ERROR when no JSON can be extracted, emit the
raw JSON, then on verification success the account events and profile
details. Returns the emitted events and the fetched URLs. -/
def process_username (opts : Opts) (fetch : Fetch) (username : String) :
    List SFEvent × List String :=
  let url := profile_url username
  let events :=
    match fetch url with
    | none => []
    | some res =>
      if res.content == "" then []
      else if res.code == 404 then []
      else
        match extract_json res.content with
        | none => [⟨"ERROR", "Unable to extract TikTok JSON"⟩]
        | some (data, raw_json) =>
          (if raw_json != "" then [⟨"RAW_RIR_DATA", raw_json⟩] else []) ++
          (if !opts.verify_acct || verify_account data username then
             ⟨"SOCIAL_MEDIA", url⟩ ::
             ⟨"INFO", "TikTok account detected: " ++ username⟩ ::
             (if opts.fetch_profile_details then process_profile opts data else [])
           else [])
  (events, [url])

/-- sfp_tiktok.handleEvent: dedup on the raw payload first, then route
by event type; USERNAME and SOCIAL_MEDIA are lowercased before
processing, the email local part is passed as is. -/
def handleEvent (opts : Opts) (fetch : Fetch) (st : PState)
    (etype edata : String) : PState × List SFEvent × List String :=
  if st.seen.contains edata then (st, [], [])
  else
    let st2 : PState := ⟨edata :: st.seen⟩
    if etype == "EMAILADDR" && opts.parse_email_local then
      let uname := localPart edata
      if valid_username uname then
        let p := process_username opts fetch uname
        (st2, p.1, p.2)
      else (st2, [], [])
    else if (etype == "USERNAME" || etype == "SOCIAL_MEDIA") &&
        valid_username edata then
      let p := process_username opts fetch (pyLower edata)
      (st2, p.1, p.2)
    else (st2, [], [])

end Tiktok

/-! ## sfp_bluesky -/

namespace Bluesky

structure Opts where
  fetch_posts : Bool := true
  max_posts : Nat := 20
  parse_bio : Bool := true
  parse_email_local : Bool := true

/-- The normalization _valid_handle applies before the regex test:
lowercase, strip whitespace, drop a single leading at sign. -/
def normalize (h : String) : String :=
  let h1 := pyStrip (pyLower h)
  if pyStarts h1 "@" then h1.drop 1 else h1

/-- Whether a normalized handle matches _HANDLE_RE. -/
def grammar_ok (h : String) : Bool := (reMatch handleRe h.data).isSome

/-- sfp_bluesky._valid_handle: the normalized handle on match, else none. -/
def valid_handle (h : String) : Option String :=
  let h2 := normalize h
  if grammar_ok h2 then some h2 else none

def api : String := "https://public.api.bsky.app/xrpc"

def profile_url (handle : String) : String :=
  api ++ "/app.bsky.actor.getProfile?actor=" ++ handle

def feed_url (opts : Opts) (handle : String) : String :=
  api ++ "/app.bsky.feed.getAuthorFeed?actor=" ++ handle ++
    "&limit=" ++ toString opts.max_posts

/-- sfp_bluesky._process_profile: optional avatar, display name and
description events, then always one serialized stats event. -/
def process_profile (opts : Opts) (data : Json) : List SFEvent :=
  (let avatar := data.get "avatar"
   if avatar.truthy then [⟨"PROFILE_PHOTO", eventData avatar⟩] else []) ++
  (let name := data.get "displayName"
   if name.truthy then [⟨"ACCOUNT_EXTERNAL_OWNER", eventData name⟩] else []) ++
  (let desc := data.get "description"
   if desc.truthy then
     ⟨"DESCRIPTION", eventData desc⟩ ::
       (if opts.parse_bio then parse_bio_entities (eventData desc) else [])
   else []) ++
  [⟨"BLUESKY_PROFILE_INFO", dumps (.obj [
      ("followers", data.get "followersCount"),
      ("following", data.get "followsCount"),
      ("posts", data.get "postsCount"),
      ("handle", data.get "handle"),
      ("did", data.get "did")])⟩]

/-- The feed loop of _process_posts: every uri-bearing post of the
response emits one LINKED_URL (and a DESCRIPTION when it has text);
there is no counter in this loop. -/
def post_events (handle : String) : List Json → List SFEvent
  | [] => []
  | itm :: rest =>
    let post := itm.getObj "post"
    let uri := post.get "uri"
    (if !uri.truthy then []
     else
       ⟨"LINKED_URL", "https://bsky.app/profile/" ++ handle ++ "/post/" ++
           lastSeg (pyStr uri)⟩ ::
       (let text := (post.getObj "record").get "text"
        if text.truthy then [⟨"DESCRIPTION", eventData text⟩] else [])) ++
    post_events handle rest

/-- Python list payload of data.get("feed", []). -/
def feedList (data : Json) : List Json :=
  match (data.getOpt "feed").getD (.arr []) with
  | .arr l => l
  | _ => []

/-- sfp_bluesky._process_posts: fetch the author feed (the configured
maximum only parametrizes the request URL) and map the loop over the
whole response. -/
def process_posts (opts : Opts) (fetch : Fetch) (handle : String) :
    List SFEvent × List String :=
  let url := feed_url opts handle
  let events :=
    match fetch url with
    | none => []
    | some res =>
      if res.content == "" then []
      else
        match json_loads res.content with
        | none => [⟨"ERROR", "Feed JSON parse error"⟩]
        | some data => post_events handle (feedList data)
  (events, [url])

/-- sfp_bluesky._process_handle: fetch the profile, bail out on an empty
body or a 400, ERROR on a parse failure, else the account events, the
profile events, and (when enabled and the maximum is positive) the
posts. The Python ERROR payload also carries the exception text. -/
def process_handle (opts : Opts) (fetch : Fetch) (handle : String) :
    List SFEvent × List String :=
  let prof := profile_url handle
  match fetch prof with
  | none => ([], [prof])
  | some res =>
    if res.content == "" then ([], [prof])
    else if res.code == 400 then ([], [prof])
    else
      match json_loads res.content with
      | none => ([⟨"ERROR", "JSON parse error"⟩], [prof])
      | some data =>
        let top := ⟨"SOCIAL_MEDIA", "https://bsky.app/profile/" ++ handle⟩ ::
          ⟨"INFO", "Bluesky account detected: " ++ handle⟩ ::
          process_profile opts data
        if opts.fetch_posts && opts.max_posts > 0 then
          let p := process_posts opts fetch handle
          (top ++ p.1, prof :: p.2)
        else (top, [prof])

/-- sfp_bluesky.handleEvent: dedup on the raw payload, then route; the
email local part gets the bsky.social suffix; the other types are
processed as the at-stripped original string (only validation
lowercases). -/
def handleEvent (opts : Opts) (fetch : Fetch) (st : PState)
    (etype edata : String) : PState × List SFEvent × List String :=
  if st.seen.contains edata then (st, [], [])
  else
    let st2 : PState := ⟨edata :: st.seen⟩
    if etype == "EMAILADDR" && opts.parse_email_local then
      let cand := localPart edata ++ ".bsky.social"
      if (valid_handle cand).isSome then
        let p := process_handle opts fetch cand
        (st2, p.1, p.2)
      else (st2, [], [])
    else if (etype == "USERNAME" || etype == "SOCIAL_MEDIA" ||
        etype == "DOMAIN_NAME" || etype == "INTERNET_NAME") &&
        (valid_handle (lstripAt edata)).isSome then
      let p := process_handle opts fetch (lstripAt edata)
      (st2, p.1, p.2)
    else (st2, [], [])

end Bluesky

/-! ## Generic lemmas about the model -/

set_option maxRecDepth 80000

theorem countType_append (t : String) (a b : List SFEvent) :
    countType t (a ++ b) = countType t a + countType t b := by
  simp [countType, List.filter_append]

theorem countType_nil (t : String) : countType t [] = 0 := rfl

theorem countType_single (t t2 : String) (d : String) :
    countType t [⟨t2, d⟩] = if t2 == t then 1 else 0 := by
  by_cases h : t2 == t <;> simp [countType, h]

theorem countType_cons (t t2 : String) (d : String) (rest : List SFEvent) :
    countType t (⟨t2, d⟩ :: rest) =
      (if t2 == t then 1 else 0) + countType t rest := by
  by_cases h : t2 == t
  · simp [countType, h]
    omega
  · simp [countType, h]

/-- The bio entity events carry only the two entity types. -/
theorem countType_parse_bio (t : String) (bio : String)
    (h1 : t ≠ "EMAILADDR") (h2 : t ≠ "DOMAIN_NAME") :
    countType t (parse_bio_entities bio) = 0 := by
  have e1 : ("EMAILADDR" == t) = false := by
    simp [BEq.beq]; exact fun h => h1 h.symm
  have e2 : ("DOMAIN_NAME" == t) = false := by
    simp [BEq.beq]; exact fun h => h2 h.symm
  simp [parse_bio_entities, countType, List.filter_append, List.filter_map,
    Function.comp, e1, e2]

theorem contains_cons_self (a : String) (l : List String) :
    (a :: l).contains a = true := by
  simp [List.contains_cons]

/-! ## Claim C1 -/

/-- Claim C1 as stated is false: only one not-found code is checked per
plugin. A TikTok fetch result with status 400 and a junk body produces
an ERROR event, and a Bluesky fetch result with status 404 and a junk
body produces an ERROR event, so processing is not event-free. -/
theorem c1_counterexample :
    (Tiktok.process_username {} (fun _ => some ⟨400, "x"⟩) "alice").1
      = [⟨"ERROR", "Unable to extract TikTok JSON"⟩] ∧
    (Bluesky.process_handle {} (fun _ => some ⟨404, "nope"⟩) "a.co").1
      = [⟨"ERROR", "JSON parse error"⟩] ∧
    ([⟨"ERROR", "Unable to extract TikTok JSON"⟩] : List SFEvent) ≠ [] :=
  ⟨rfl, rfl, by simp⟩

/-- Claim C1 amended: each plugin silently aborts (no outbound events)
only on its own not-found code — Bluesky on status 400, TikTok on
status 404 — whatever the response body is; the respective other code
is not special-cased and is processed like any other response. -/
theorem c1_thm (bopts : Bluesky.Opts) (topts : Tiktok.Opts)
    (c d h u : String) :
    (Bluesky.process_handle bopts (fun _ => some ⟨400, c⟩) h).1 = [] ∧
    (Tiktok.process_username topts (fun _ => some ⟨404, d⟩) u).1 = [] := by
  constructor
  · by_cases hc : c == "" <;> simp [Bluesky.process_handle, hc]
  · by_cases hd : d == "" <;> simp [Tiktok.process_username, hd]

/-! ## Claim C2 -/

/-- Claim C2 as stated is false for TikTok: its validator is a Boolean
test on the unmodified input, so the at-prefixed example is rejected
rather than normalized and accepted. -/
theorem c2_counterexample :
    Tiktok.valid_username "@John-Doe.example" = false := by decide

/-- Claim C2 amended: the Bluesky validator returns the normalized
handle (lowercased, whitespace-stripped, one leading at sign removed)
exactly when the normalized string matches the handle grammar, and
none otherwise, never raising; the at-prefixed example normalizes and
is accepted. The TikTok validator is a Boolean predicate on the raw
input with no normalization (handleEvent lowercases separately), so
the at-prefixed example is rejected while its unprefixed form passes. -/
theorem c2_thm :
    Bluesky.valid_handle "@John-Doe.example" = some "john-doe.example" ∧
    Bluesky.valid_handle "invalid_handle!" = none ∧
    Tiktok.valid_username "@John-Doe.example" = false ∧
    Tiktok.valid_username "John-Doe.example" = true ∧
    (∀ s h, Bluesky.valid_handle s = some h →
      h = Bluesky.normalize s ∧ Bluesky.grammar_ok h = true) ∧
    (∀ s, Bluesky.valid_handle s = none →
      Bluesky.grammar_ok (Bluesky.normalize s) = false) := by
  refine ⟨by decide, by decide, by decide, by decide, ?_, ?_⟩
  · intro s h hv
    by_cases hg : Bluesky.grammar_ok (Bluesky.normalize s) <;>
      simp [Bluesky.valid_handle, hg] at hv
    exact ⟨hv.symm, hv ▸ hg⟩
  · intro s hv
    by_cases hg : Bluesky.grammar_ok (Bluesky.normalize s) <;>
      simp [Bluesky.valid_handle, hg] at hv ⊢

/-- Witness for the universally quantified part of the amended C2. -/
theorem c2_witness :
    "john-doe.example" = Bluesky.normalize "@John-Doe.example" ∧
    Bluesky.grammar_ok "john-doe.example" = true :=
  c2_thm.2.2.2.2.1 "@John-Doe.example" "john-doe.example" (by decide)

/-! ## Claim C3 -/

/-- A payload already in the seen set short-circuits the TikTok handler. -/
theorem tiktok_handle_seen (opts : Tiktok.Opts) (fetch : Fetch)
    (st : PState) (etype edata : String)
    (h : st.seen.contains edata = true) :
    Tiktok.handleEvent opts fetch st etype edata = (st, [], []) := by
  unfold Tiktok.handleEvent
  rw [if_pos h]

/-- A payload already in the seen set short-circuits the Bluesky handler. -/
theorem bluesky_handle_seen (opts : Bluesky.Opts) (fetch : Fetch)
    (st : PState) (etype edata : String)
    (h : st.seen.contains edata = true) :
    Bluesky.handleEvent opts fetch st etype edata = (st, [], []) := by
  unfold Bluesky.handleEvent
  rw [if_pos h]

/-- The TikTok handler always marks the payload as seen. -/
theorem tiktok_seen_after (opts : Tiktok.Opts) (fetch : Fetch)
    (st : PState) (etype edata : String) :
    (Tiktok.handleEvent opts fetch st etype edata).1.seen.contains edata = true := by
  unfold Tiktok.handleEvent
  dsimp only
  repeat' split
  all_goals first
    | exact contains_cons_self edata st.seen
    | assumption

/-- The Bluesky handler always marks the payload as seen. -/
theorem bluesky_seen_after (opts : Bluesky.Opts) (fetch : Fetch)
    (st : PState) (etype edata : String) :
    (Bluesky.handleEvent opts fetch st etype edata).1.seen.contains edata = true := by
  unfold Bluesky.handleEvent
  dsimp only
  repeat' split
  all_goals first
    | exact contains_cons_self edata st.seen
    | assumption

/-- Claim C3 confirmed: delivering the same inbound payload a second
time to the same plugin instance is a no-op for both plugins — the
second delivery leaves the state unchanged, emits no events and issues
no fetch requests, because the raw string is checked against and added
to the seen set before any further processing. -/
theorem c3_thm (topts : Tiktok.Opts) (bopts : Bluesky.Opts)
    (tf bf : Fetch) (st st2 : PState) (etype edata : String) :
    Tiktok.handleEvent topts tf (Tiktok.handleEvent topts tf st etype edata).1
        etype edata
      = ((Tiktok.handleEvent topts tf st etype edata).1, [], []) ∧
    Bluesky.handleEvent bopts bf (Bluesky.handleEvent bopts bf st2 etype edata).1
        etype edata
      = ((Bluesky.handleEvent bopts bf st2 etype edata).1, [], []) :=
  ⟨tiktok_handle_seen topts tf _ etype edata
      (tiktok_seen_after topts tf st etype edata),
   bluesky_handle_seen bopts bf _ etype edata
      (bluesky_seen_after bopts bf st2 etype edata)⟩

/-! ## Claim C4 -/

/-- An HTML page with only a __NEXT_DATA__ block whose payload carries
both a user record and an item record. -/
def c4Html : String :=
  "<script id=\"__NEXT_DATA__\">\x7b\"props\": \x7b\"pageProps\": \x7b\"userInfo\": \x7b\"user\": \x7b\"uniqueId\": \"alice\"\x7d\x7d, \"itemInfo\": \x7b\"itemStruct\": \x7b\"id\": \"7\", \"desc\": \"d\", \"author\": \"alice\"\x7d\x7d\x7d\x7d\x7d</script>"

def c4Item : Json :=
  .obj [("id", .str "7"), ("desc", .str "d"), ("author", .str "alice")]

/-- Claim C4 evaluated at the failing input: the UserModule.users part
of the reshape is keyed by the unique id as claimed, but the ItemModule
part is the raw itemStruct record itself (keyed by its field names),
not a mapping keyed by the item id — the canonical shape the spec
describes and the video loop downstream consumes. -/
theorem c4_failing_input :
    (Tiktok.extract_json c4Html).map
        (fun p => (p.1.getObj "UserModule").get "users")
      = some (.obj [("alice", .obj [("uniqueId", .str "alice")])]) ∧
    (Tiktok.extract_json c4Html).map (fun p => p.1.get "ItemModule")
      = some c4Item ∧
    (Tiktok.extract_json c4Html).map
        (fun p => (p.1.get "ItemModule").items.map Prod.fst)
      = some ["id", "desc", "author"] :=
  ⟨rfl, rfl, rfl⟩

/-! ## Claim C5 -/

/-- Claim C5 as stated is false: a user record with every field absent
still emits the serialized numeric-stats event, carrying null
placeholders for all the missing data, in both plugins. -/
theorem c5_counterexample :
    Tiktok.process_profile {}
        (.obj [("UserModule", .obj [("users", .obj [("x", .obj [])])])])
      = [⟨"TIKTOK_PROFILE_INFO",
          "\x7b\"nickname\": null, \"followers\": null, \"likes\": null, \"videos\": null, \"private\": false, \"verified\": false\x7d"⟩] ∧
    Bluesky.process_profile {} (.obj [])
      = [⟨"BLUESKY_PROFILE_INFO",
          "\x7b\"followers\": null, \"following\": null, \"posts\": null, \"handle\": null, \"did\": null\x7d"⟩] :=
  ⟨rfl, rfl⟩

/-- Claim C5 amended: the four scalar profile fields each emit exactly
one typed event when present and truthy and none when absent, but the
numeric-stats event is emitted unconditionally, once per user record,
even when every one of its fields is missing (null placeholders). -/
theorem c5_thm (topts : Tiktok.Opts) (bopts : Bluesky.Opts)
    (user data : Json) :
    countType "PROFILE_PHOTO" (Tiktok.user_events topts user)
      = (if (user.get "avatarThumb").truthy then 1 else 0) ∧
    countType "DESCRIPTION" (Tiktok.user_events topts user)
      = (if (user.get "signature").truthy then 1 else 0) ∧
    countType "GEOINFO" (Tiktok.user_events topts user)
      = (if (user.get "region").truthy then 1 else 0) ∧
    countType "ACCOUNT_EXTERNAL_OWNER" (Tiktok.user_events topts user)
      = (if (user.get "nickname").truthy then 1 else 0) ∧
    countType "TIKTOK_PROFILE_INFO" (Tiktok.user_events topts user) = 1 ∧
    countType "PROFILE_PHOTO" (Bluesky.process_profile bopts data)
      = (if (data.get "avatar").truthy then 1 else 0) ∧
    countType "ACCOUNT_EXTERNAL_OWNER" (Bluesky.process_profile bopts data)
      = (if (data.get "displayName").truthy then 1 else 0) ∧
    countType "DESCRIPTION" (Bluesky.process_profile bopts data)
      = (if (data.get "description").truthy then 1 else 0) ∧
    countType "BLUESKY_PROFILE_INFO" (Bluesky.process_profile bopts data) = 1 := by
  have tb : ∀ t bio, t ≠ "EMAILADDR" → t ≠ "DOMAIN_NAME" →
      countType t (if topts.parse_bio then parse_bio_entities bio else []) = 0 := by
    intro t bio h1 h2
    by_cases hp : topts.parse_bio <;>
      simp [hp, countType_parse_bio t bio h1 h2, countType_nil]
  have bb : ∀ t bio, t ≠ "EMAILADDR" → t ≠ "DOMAIN_NAME" →
      countType t (if bopts.parse_bio then parse_bio_entities bio else []) = 0 := by
    intro t bio h1 h2
    by_cases hp : bopts.parse_bio <;>
      simp [hp, countType_parse_bio t bio h1 h2, countType_nil]
  unfold Tiktok.user_events Bluesky.process_profile
  by_cases h1 : (user.get "avatarThumb").truthy <;>
  by_cases h2 : (user.get "signature").truthy <;>
  by_cases h3 : (user.get "region").truthy <;>
  by_cases h4 : (user.get "nickname").truthy <;>
  by_cases h5 : (data.get "avatar").truthy <;>
  by_cases h6 : (data.get "displayName").truthy <;>
  by_cases h7 : (data.get "description").truthy <;>
  simp [h1, h2, h3, h4, h5, h6, h7, countType_append, countType_cons,
    countType_single, countType_nil, tb, bb]

/-! ## Claim C6 -/

/-- The LINKED_URL event the video loop emits for one item. -/
def tiktok_video_event (p : String × Json) : SFEvent :=
  ⟨"LINKED_URL", "https://www.tiktok.com/@" ++ pyStr (p.2.get "author") ++
    "/video/" ++ p.1⟩

/-- The video loop emits exactly the first maxV - count items (in
encounter order) as LINKED_URL events. -/
theorem videos_loop_linked (maxV : Nat) :
    ∀ (items : List (String × Json)) (count : Nat), count < maxV →
    (Tiktok.videos_loop maxV items count).filter
        (fun e => e.eventType == "LINKED_URL")
      = (items.take (maxV - count)).map tiktok_video_event
  | [], count, _ => by simp [Tiktok.videos_loop]
  | (vid_id, vid) :: rest, count, h => by
    unfold Tiktok.videos_loop
    dsimp only
    by_cases hb : count + 1 ≥ maxV
    · have h1 : maxV - count = 1 := by omega
      by_cases hd : (vid.get "desc").truthy <;>
        simp [hb, hd, h1, tiktok_video_event]
    · have hlt : count + 1 < maxV := by omega
      have ih := videos_loop_linked maxV rest (count + 1) hlt
      have h1 : maxV - count = (maxV - (count + 1)) + 1 := by omega
      by_cases hd : (vid.get "desc").truthy <;>
        simp [hb, hd, h1, ih, tiktok_video_event, List.filter_append]

/-- The per-user profile events contain no LINKED_URL. -/
theorem user_events_no_linked (topts : Tiktok.Opts) (user : Json) :
    countType "LINKED_URL" (Tiktok.user_events topts user) = 0 := by
  have pb : ∀ bio, countType "LINKED_URL" (parse_bio_entities bio) = 0 :=
    fun bio => countType_parse_bio _ bio (by decide) (by decide)
  unfold Tiktok.user_events
  by_cases h1 : (user.get "avatarThumb").truthy <;>
  by_cases h2 : (user.get "signature").truthy <;>
  by_cases h3 : (user.get "region").truthy <;>
  by_cases h4 : (user.get "nickname").truthy <;>
  by_cases hp : topts.parse_bio <;>
  simp [h1, h2, h3, h4, hp, countType_append, countType_cons,
    countType_single, countType_nil, pb]

theorem countType_flatten_zero (t : String) (ls : List (List SFEvent))
    (h : ∀ l ∈ ls, countType t l = 0) : countType t ls.flatten = 0 := by
  induction ls with
  | nil => rfl
  | cons a rest ih =>
    rw [List.flatten_cons, countType_append, h a (by simp),
      ih (fun l hl => h l (by simp [hl]))]

/-- Per uri-bearing feed item, the Bluesky feed loop emits one
LINKED_URL event, with no counter anywhere. -/
theorem post_events_linked (handle : String) :
    ∀ items : List Json,
    countType "LINKED_URL" (Bluesky.post_events handle items)
      = (items.filter (fun itm => ((itm.getObj "post").get "uri").truthy)).length
  | [] => rfl
  | itm :: rest => by
    unfold Bluesky.post_events
    dsimp only
    by_cases hu : ((itm.getObj "post").get "uri").truthy
    · by_cases ht : (((itm.getObj "post").getObj "record").get "text").truthy <;>
        simp [hu, ht, countType_append, countType_cons, countType_single,
          countType_nil, post_events_linked handle rest] <;> omega
    · simp [hu, countType_append, countType_nil,
        post_events_linked handle rest]

/-- Claim C6 as stated is false for Bluesky: with a configured maximum
of 1, a feed response carrying two posts produces two LINKED_URL
events — the maximum only parametrizes the request URL, the plugin
itself enforces no cap. -/
theorem c6_counterexample :
    countType "LINKED_URL"
      (Bluesky.process_posts { max_posts := 1 }
        (fun _ => some ⟨200, "\x7b\"feed\": [\x7b\"post\": \x7b\"uri\": \"at://t.example/1\"\x7d\x7d, \x7b\"post\": \x7b\"uri\": \"at://t.example/2\"\x7d\x7d]\x7d"⟩)
        "t.example").1 = 2 := by decide

/-- Claim C6 amended: TikTok enforces the cap in the plugin — a
maximum of 0 skips video extraction entirely, and a positive maximum N
keeps exactly the first N items of the collection in encounter order.
Bluesky only skips when its maximum is 0 (no feed fetch at all); when
the feed is fetched, every uri-bearing post of the response emits a
LINKED_URL event, with no plugin-side cap (the maximum is only passed
to the server as a request parameter). -/
theorem c6_thm :
    (∀ (topts : Tiktok.Opts) (data : Json), topts.max_videos = 0 →
      countType "LINKED_URL" (Tiktok.process_profile topts data) = 0) ∧
    (∀ (maxV : Nat) (items : List (String × Json)), 0 < maxV →
      (Tiktok.videos_loop maxV items 0).filter
          (fun e => e.eventType == "LINKED_URL")
        = (items.take maxV).map tiktok_video_event) ∧
    (∀ (handle : String) (items : List Json),
      countType "LINKED_URL" (Bluesky.post_events handle items)
        = (items.filter
            (fun itm => ((itm.getObj "post").get "uri").truthy)).length) ∧
    (∀ (bopts : Bluesky.Opts) (fetch : Fetch) (h : String),
      bopts.max_posts = 0 →
      (Bluesky.process_handle bopts fetch h).2 = [Bluesky.profile_url h]) := by
  refine ⟨?_, ?_, post_events_linked, ?_⟩
  · intro topts data hmax
    unfold Tiktok.process_profile
    have hc : (!topts.fetch_videos || topts.max_videos == 0) = true := by
      simp [hmax]
    rw [if_pos hc, countType_append]
    rw [countType_flatten_zero _ _ (fun l hl => ?_), countType_nil]
    obtain ⟨u, _, rfl⟩ := List.mem_map.mp hl
    exact user_events_no_linked topts u
  · intro maxV items hpos
    have h := videos_loop_linked maxV items 0 hpos
    simpa using h
  · intro bopts fetch h hmax
    have hff : (bopts.fetch_posts && decide (bopts.max_posts > 0)) = false := by
      simp [hmax]
    unfold Bluesky.process_handle
    dsimp only
    cases fetch (Bluesky.profile_url h) with
    | none => rfl
    | some res =>
      dsimp only
      repeat' split
      all_goals first
        | rfl
        | (next hcond => rw [hff] at hcond; exact Bool.noConfusion hcond)

/-- Witness instantiating the amended C6 at concrete inputs. -/
theorem c6_witness :
    countType "LINKED_URL" (Tiktok.process_profile { max_videos := 0 } (.obj [])) = 0 ∧
    (Tiktok.videos_loop 2 [("1", .obj []), ("2", .obj []), ("3", .obj [])] 0).filter
        (fun e => e.eventType == "LINKED_URL")
      = [tiktok_video_event ("1", .obj []), tiktok_video_event ("2", .obj [])] ∧
    countType "LINKED_URL" (Bluesky.post_events "t.example" [.obj []]) = 0 ∧
    (Bluesky.process_handle { max_posts := 0 } (fun _ => none) "t.example").2
      = [Bluesky.profile_url "t.example"] := by
  refine ⟨c6_thm.1 _ (.obj []) rfl, ?_, ?_, c6_thm.2.2.2 _ (fun _ => none) _ rfl⟩
  · rw [c6_thm.2.1 2 [("1", .obj []), ("2", .obj []), ("3", .obj [])] (by decide)]
    rfl
  · rw [c6_thm.2.2.1 "t.example" [.obj []]]
    rfl

/-! ## Claim C7 -/

/-- Whatever happens downstream, the first URL the Bluesky pipeline
requests is the profile endpoint for the handle it was given. -/
theorem bluesky_requests_head (opts : Bluesky.Opts) (fetch : Fetch)
    (h : String) :
    (Bluesky.process_handle opts fetch h).2.head?
      = some (Bluesky.profile_url h) := by
  unfold Bluesky.process_handle
  dsimp only
  cases fetch (Bluesky.profile_url h) with
  | none => rfl
  | some res =>
    dsimp only
    repeat' split
    all_goals rfl

/-- Claim C7 as stated is false: for the accepted mixed-case candidate
identifier, the Bluesky handler fetches (and therefore processes) the
original casing, not the lowercased form — validation lowercases only
its own copy. -/
theorem c7_counterexample :
    (Bluesky.handleEvent {} (fun _ => none) ⟨[]⟩ "USERNAME" "Example.Com").2.2
      = ["https://public.api.bsky.app/xrpc/app.bsky.actor.getProfile?actor=Example.Com"] ∧
    ("Example.Com" : String) ≠ pyLower "Example.Com" :=
  ⟨rfl, by decide⟩

/-- Claim C7 amended: only the TikTok USERNAME and SOCIAL_MEDIA path
lowercases the identifier before processing; the Bluesky paths process
the at-stripped original string with its casing intact (and both email
local-part paths keep the original casing as well). -/
theorem c7_thm :
    (∀ (topts : Tiktok.Opts) (fetch : Fetch) (st : PState)
        (etype edata : String),
      (etype = "USERNAME" ∨ etype = "SOCIAL_MEDIA") →
      st.seen.contains edata = false →
      Tiktok.valid_username edata = true →
      (Tiktok.handleEvent topts fetch st etype edata).2.2
        = [Tiktok.profile_url (pyLower edata)]) ∧
    (∀ (bopts : Bluesky.Opts) (fetch : Fetch) (st : PState)
        (etype edata : String),
      (etype = "USERNAME" ∨ etype = "SOCIAL_MEDIA" ∨ etype = "DOMAIN_NAME" ∨
        etype = "INTERNET_NAME") →
      st.seen.contains edata = false →
      (Bluesky.valid_handle (lstripAt edata)).isSome = true →
      (Bluesky.handleEvent bopts fetch st etype edata).2.2.head?
        = some (Bluesky.profile_url (lstripAt edata))) := by
  constructor
  · intro topts fetch st etype edata het hseen hval
    unfold Tiktok.handleEvent
    rw [if_neg (fun hc => Bool.noConfusion (hseen ▸ hc))]
    rcases het with rfl | rfl <;> simp [hval, Tiktok.process_username]
  · intro bopts fetch st etype edata het hseen hval
    unfold Bluesky.handleEvent
    rw [if_neg (fun hc => Bool.noConfusion (hseen ▸ hc))]
    rcases het with rfl | rfl | rfl | rfl <;>
      simp [hval, bluesky_requests_head]

/-- Witness instantiating the amended C7 at mixed-case identifiers. -/
theorem c7_witness :
    (Tiktok.handleEvent {} (fun _ => none) ⟨[]⟩ "USERNAME" "Alice").2.2
      = [Tiktok.profile_url (pyLower "Alice")] ∧
    (Bluesky.handleEvent {} (fun _ => none) ⟨[]⟩ "USERNAME" "Example.Com").2.2.head?
      = some (Bluesky.profile_url (lstripAt "Example.Com")) :=
  ⟨c7_thm.1 {} (fun _ => none) ⟨[]⟩ "USERNAME" "Alice" (Or.inl rfl)
      (by decide) (by decide),
   c7_thm.2 {} (fun _ => none) ⟨[]⟩ "USERNAME" "Example.Com" (Or.inl rfl)
      (by decide) (by decide)⟩

/-! ## Claim C8 -/

def c8Data : Json :=
  .obj [("UserModule", .obj [("users",
    .obj [("k", .obj [("uniqueId", .str "Alice")])])])]

/-- Claim C8 as stated is false: the users mapping is present and its
record unique id "Alice" matches the expected handle "Alice" case
insensitively (they are equal), yet verification fails — the code
lowercases only the record side of the comparison, so any non-lowercase
expected handle can never match. -/
theorem c8_counterexample :
    (Tiktok.usersOf c8Data).truthy = true ∧
    Tiktok.uniqueIdLower (.obj [("uniqueId", .str "Alice")]) = pyLower "Alice" ∧
    Tiktok.verify_account c8Data "Alice" = false :=
  ⟨rfl, rfl, rfl⟩

/-- Claim C8 amended: verification succeeds exactly when the users
mapping (UserModule.users, or else ShareUser.users) is truthy and some
record of it has a lowercased unique id equal to the given handle —
case-insensitive in the record only, so for lowercase handles this is
the case-insensitive match the spec describes. There is no event
emission and no exception in this check, and the private/banned flags
do not change the result (second conjunct: a private, banned record
with nonzero status still verifies). -/
theorem c8_thm (data : Json) (username : String) :
    (Tiktok.verify_account data username = true ↔
      ((Tiktok.usersOf data).truthy = true ∧
       ∃ u ∈ (Tiktok.usersOf data).values,
         Tiktok.uniqueIdLower u = username)) ∧
    Tiktok.verify_account
      (.obj [("UserModule", .obj [("users",
        .obj [("k", .obj [("uniqueId", .str "ALICE"), ("isPrivate", .bool true),
          ("isBan", .bool true), ("status", .num 2)])])])]) "alice" = true := by
  constructor
  · unfold Tiktok.verify_account
    by_cases ht : (Tiktok.usersOf data).truthy
    · simp [ht, List.find?_isSome]
    · simp [ht]
  · rfl

/-! ## Claim C9 -/

/-- HTML whose first-priority SIGI block holds unparsable JSON while a
later __NEXT_DATA__ block would parse. -/
def c9Html : String :=
  "<script id=\"SIGI_STATE\">notjson</script><script id=\"__NEXT_DATA__\">\x7b\"props\": \x7b\x7d\x7d</script>"

/-- Claim C9 confirmed: the extractor tries the five strategies in the
fixed order SIGI script block, SIGI window assignment, NEXT script
block, NEXT window assignment, generic application/json block; a
non-matching pattern and a matched candidate whose JSON fails to parse
both fall through to the next strategy; and when extraction fails
altogether the caller emits exactly one ERROR event and stops (the
model is a total function, so nothing is raised). -/
theorem c9_thm :
    (Tiktok.strategies = [(sigiPat, .sigi), (sigiWin, .sigi),
        (nextPat, .next), (nextWin, .next), (appJson, .generic)] ∧
     ∀ html : String,
       Tiktok.extract_json html
         = Tiktok.try_strategies Tiktok.strategies html.data) ∧
    (∀ (rgx : List RItem) (typ : Tiktok.SrcTyp)
        (rest : List (List RItem × Tiktok.SrcTyp)) (html : List Char),
      reCapture rgx html = none →
      Tiktok.try_strategies ((rgx, typ) :: rest) html
        = Tiktok.try_strategies rest html) ∧
    (∀ (rgx : List RItem) (typ : Tiktok.SrcTyp)
        (rest : List (List RItem × Tiktok.SrcTyp)) (html g : List Char),
      reCapture rgx html = some g →
      json_loads (String.mk (pyUnescape g)) = none →
      Tiktok.try_strategies ((rgx, typ) :: rest) html
        = Tiktok.try_strategies rest html) ∧
    (∀ (topts : Tiktok.Opts) (fetch : Fetch) (username : String)
        (code : Int) (content : String),
      fetch (Tiktok.profile_url username) = some ⟨code, content⟩ →
      content ≠ "" → code ≠ 404 →
      Tiktok.extract_json content = none →
      (Tiktok.process_username topts fetch username).1
        = [⟨"ERROR", "Unable to extract TikTok JSON"⟩]) := by
  refine ⟨⟨rfl, fun _ => rfl⟩, ?_, ?_, ?_⟩
  · intro rgx typ rest html hnone
    conv_lhs => rw [Tiktok.try_strategies]
    rw [hnone]
  · intro rgx typ rest html g hsome hparse
    conv_lhs => rw [Tiktok.try_strategies]
    rw [hsome]
    dsimp only
    rw [hparse]
  · intro topts fetch username code content hf hcont hcode hext
    unfold Tiktok.process_username
    dsimp only
    rw [hf]
    dsimp only
    rw [if_neg (by simp [hcont]), if_neg (by simp [hcode]), hext]

/-- Witness for the amended parts of C9: on the concrete page the
unparsable SIGI candidate falls through, and a junk body makes the
caller emit exactly the one ERROR event. -/
theorem c9_witness :
    Tiktok.try_strategies Tiktok.strategies c9Html.data
      = Tiktok.try_strategies [(sigiWin, .sigi), (nextPat, .next),
          (nextWin, .next), (appJson, .generic)] c9Html.data ∧
    (Tiktok.process_username {} (fun _ => some ⟨200, "junk"⟩) "alice").1
      = [⟨"ERROR", "Unable to extract TikTok JSON"⟩] :=
  ⟨c9_thm.2.2.1 sigiPat .sigi
      [(sigiWin, .sigi), (nextPat, .next), (nextWin, .next),
        (appJson, .generic)]
      c9Html.data "notjson".data (by rfl) (by rfl),
   c9_thm.2.2.2 {} (fun _ => some ⟨200, "junk"⟩) "alice" 200 "junk" rfl
      (by decide) (by decide) (by rfl)⟩

/-! ## Claim C10 -/

/-- Claim C10 confirmed: whenever extraction succeeds with a non-empty
raw JSON string, the first emitted event is RAW_RIR_DATA carrying that
string — before verification runs — so processing is not event-free;
and when verification is enabled but fails, that single event is the
entire output. -/
theorem c10_thm (topts : Tiktok.Opts) (fetch : Fetch) (username : String)
    (code : Int) (content raw : String) (data : Json) :
    fetch (Tiktok.profile_url username) = some ⟨code, content⟩ →
    content ≠ "" → code ≠ 404 →
    Tiktok.extract_json content = some (data, raw) →
    raw ≠ "" →
    ((Tiktok.process_username topts fetch username).1.head?
        = some ⟨"RAW_RIR_DATA", raw⟩ ∧
     (Tiktok.process_username topts fetch username).1 ≠ [] ∧
     (topts.verify_acct = true →
      Tiktok.verify_account data username = false →
      (Tiktok.process_username topts fetch username).1
        = [⟨"RAW_RIR_DATA", raw⟩])) := by
  intro hf hcont hcode hext hraw
  have hr : (raw != "") = true := by simp [hraw]
  unfold Tiktok.process_username
  dsimp only
  rw [hf]
  dsimp only
  rw [if_neg (by simp [hcont]), if_neg (by simp [hcode]), hext]
  dsimp only
  rw [if_pos hr]
  refine ⟨?_, ?_, ?_⟩
  · cases hb : (!topts.verify_acct || Tiktok.verify_account data username) <;>
      simp [hb]
  · cases hb : (!topts.verify_acct || Tiktok.verify_account data username) <;>
      simp [hb]
  · intro hv hvf
    simp [hv, hvf]

def c10Html : String :=
  "<script id=\"SIGI_STATE\">\x7b\"UserModule\": \x7b\"users\": \x7b\"k\": \x7b\"uniqueId\": \"bob\"\x7d\x7d\x7d\x7d</script>"

def c10Raw : String :=
  "\x7b\"UserModule\": \x7b\"users\": \x7b\"k\": \x7b\"uniqueId\": \"bob\"\x7d\x7d\x7d\x7d"

def c10Data : Json :=
  .obj [("UserModule", .obj [("users",
    .obj [("k", .obj [("uniqueId", .str "bob")])])])]

/-- Witness for C10: a page whose embedded account is bob, processed
for the handle alice — verification fails, yet the RAW_RIR_DATA event
was already emitted and is the whole output. -/
theorem c10_witness :
    (Tiktok.process_username {} (fun _ => some ⟨200, c10Html⟩) "alice").1.head?
      = some ⟨"RAW_RIR_DATA", c10Raw⟩ ∧
    (Tiktok.process_username {} (fun _ => some ⟨200, c10Html⟩) "alice").1
      = [⟨"RAW_RIR_DATA", c10Raw⟩] := by
  have h := c10_thm {} (fun _ => some ⟨200, c10Html⟩) "alice" 200 c10Html
    c10Raw c10Data rfl (by decide) (by decide) (by rfl) (by decide)
  exact ⟨h.1, h.2.2 rfl (by rfl)⟩
